import Mathlib

/-!
Shallow embedding of the Yeongyanggaeng diet-tracking application
(`src/app.py`, `src/data/database.py`, `src/models.py`) and proofs of the
specification claims about it.

External effects (the googletrans translator, the OpenFoodFacts HTTP
endpoints, bcrypt, SQLAlchemy commits) are modelled as explicit oracle
parameters; the SQLite tables are modelled as lists of rows threaded
through each operation.
-/

namespace Yeongyang

/-- Python truthiness on an optional string: `None` and the empty string
are falsy, every other string is truthy (`if barcode:` / `if product_name:`
in `app.py`). -/
def truthy : Option String → Bool
  | none => false
  | some s => s ≠ ""

/-- Normalisation performed by the `if barcode:` guard inside
`translate_to_korean_cached` (app.py:270): a `None` or empty-string barcode
behaves exactly like no barcode at all. -/
def effBarcode : Option String → Option String
  | none => none
  | some b => if b = "" then none else some b

/-! ## Translation cache (`ProductTranslation` table, app.py:55-59, 266-296) -/

/-- The `product_translations` table: rows of (barcode, translated_name).
The barcode column carries a UNIQUE constraint; rows are only ever inserted
by `translate_to_korean_cached`. -/
structure TransDB where
  rows : List (String × String)
  deriving Repr, DecidableEq

/-- Stored name for a barcode, if a cache row exists:
`session.query(ProductTranslation).filter_by(barcode=barcode).first()`
(app.py:271). -/
def lookupTrans (db : TransDB) (b : String) : Option String :=
  (db.rows.find? (fun r => r.1 = b)).map (fun r => r.2)

/-- Appending a fresh cache row:
`session.add(new_translation); session.commit()` (app.py:278-280). -/
def insertTrans (db : TransDB) (b t : String) : TransDB :=
  ⟨db.rows ++ [(b, t)]⟩

/-- Outcome of the live call `translator.translate(text, dest=...)`:
either a translated string or a raised exception. -/
inductive LiveResult where
  | ok (t : String)
  | err
  deriving Repr, DecidableEq

/-- Result of one call to `translate_to_korean_cached`: the returned text,
the cache table afterwards, and how many live translator calls were made. -/
structure TransOutcome where
  result : String
  db : TransDB
  liveCalls : Nat
  deriving Repr, DecidableEq

/-- Model of `translate_to_korean_cached(text, barcode=None)`
(app.py:266-287). `live` is the outcome of the `translator.translate`
call, `persistOk` whether `session.commit()` on the new cache row
succeeds. On a cache hit the stored name is returned with no live call;
on any exception (live failure, or commit failure after a live success)
the handler returns the original `text` and the session is rolled back,
leaving the table unchanged. -/
def translate_to_korean_cached (live : LiveResult) (persistOk : Bool)
    (db : TransDB) (text : String) (barcode : Option String) : TransOutcome :=
  match effBarcode barcode with
  | some b =>
    match lookupTrans db b with
    | some n => ⟨n, db, 0⟩
    | none =>
      match live with
      | .err => ⟨text, db, 1⟩
      | .ok tr =>
        if persistOk then ⟨tr, insertTrans db b tr, 1⟩
        else ⟨text, db, 1⟩
  | none =>
    match live with
    | .err => ⟨text, db, 1⟩
    | .ok tr => ⟨tr, db, 1⟩

/-- Model of `translate_to_english_cached(text)` (app.py:289-296): a live
call with a fail-open handler returning the input text. -/
def translate_to_english_cached (live : LiveResult) (text : String) : String :=
  match live with
  | .err => text
  | .ok tr => tr

/-! ## Raw products and the two projection call sites
(app.py:302-360 `get_api_foods_cached`, app.py:698-709 `manage_meals`) -/

/-- A raw OpenFoodFacts record restricted to the requested field list
`product_name,product_name_KR,code,brands,categories`; `none` models an
absent JSON key. -/
structure RawProduct where
  product_name : Option String
  product_name_KR : Option String
  code : Option String
  brands : Option String
  categories : Option String
  deriving Repr, DecidableEq

/-- A display record; the Korean column labels of the source dicts map to
these fields: 제품 이름 = name, 바코드 = barcode, 제조사 = manufacturer,
카테고리 = categories. -/
structure DisplayProduct where
  name : String
  barcode : String
  manufacturer : String
  categories : String
  deriving Repr, DecidableEq

/-- Comma normalisation applied to brands/categories in both call sites,
`", ".join(s.split(','))`: split on every comma (keeping empty pieces) and
rejoin with a comma and a space. -/
def joinComma (s : String) : String :=
  String.intercalate ", " (s.splitOn ",")

/-- Shared shape of `product_name = product.get('product_name'); if
product_name: name = translate_to_korean_cached(product_name, ...) else:
name = '이름 없음'` inside `get_api_foods_cached`. `T` stands for the value
returned by `translate_to_korean_cached` for a (text, barcode) pair in the
prevailing cache state. -/
def nameFromProductName (T : String → Option String → String)
    (bc : Option String) (pn : Option String) : String :=
  if truthy pn then T (pn.getD "") bc else "이름 없음"

/-- Per-record projection performed by the paginated listing
`get_api_foods_cached` (app.py:322-345). Note the branch structure of the
source: the pre-localized `product_name_KR` field is consulted only inside
the barcode-present branch. -/
def projListing (T : String → Option String → String) (p : RawProduct) :
    DisplayProduct :=
  let barcode := p.code.getD "바코드 없음"
  let name :=
    if barcode ≠ "바코드 없음" then
      if truthy p.product_name_KR then p.product_name_KR.getD ""
      else nameFromProductName T (some barcode) p.product_name
    else
      nameFromProductName T none p.product_name
  { name := name
    barcode := barcode
    manufacturer := joinComma (p.brands.getD "제조사 없음")
    categories := joinComma (p.categories.getD "카테고리 없음") }

/-- Per-record projection performed by the search-results path in
`manage_meals` (app.py:701-709): the list comprehension filters out records
with neither a truthy `product_name` nor a truthy `product_name_KR`
(returning `none` here), and resolves the name by
`product.get('product_name_KR') or translate_to_korean_cached(
product.get('product_name', '이름 없음'), barcode=product.get('code', None))`. -/
def projSearchRecord (T : String → Option String → String) (p : RawProduct) :
    Option DisplayProduct :=
  if truthy p.product_name || truthy p.product_name_KR then
    some
      { name :=
          if truthy p.product_name_KR then p.product_name_KR.getD ""
          else T (p.product_name.getD "이름 없음") p.code
        barcode := p.code.getD "바코드 없음"
        manufacturer := joinComma (p.brands.getD "제조사 없음")
        categories := joinComma (p.categories.getD "카테고리 없음") }
  else none

/-- Concrete raw record exhibiting the divergence of the two call sites: a
pre-localized Korean name, an English name, and no `code` field. -/
def divergingProduct : RawProduct :=
  { product_name := some "Kimchi"
    product_name_KR := some "김치"
    code := none
    brands := none
    categories := none }

/-- Concrete raw record with a barcode but neither name field: the search
path drops it, the listing shows it under the no-name sentinel. -/
def namelessProduct : RawProduct :=
  { product_name := none
    product_name_KR := none
    code := some "999"
    brands := some "BrandA"
    categories := none }

/-- Concrete translation function backing the divergence witness: the
result of `translate_to_korean_cached` when the live translator raises
(fail-open, app.py:283-285) against an empty cache — it returns its input
text unchanged. -/
def failOpenT (text : String) (bc : Option String) : String :=
  (translate_to_korean_cached .err true ⟨[]⟩ text bc).result

/-! ## External food search with retry (`search_food`, app.py:363-411) -/

/-- Outcome of one `session_requests.get(...)` attempt inside the retry
loop: the three transport exception classes caught together
(`ChunkedEncodingError`, `ConnectionError`, `Timeout`), an
`requests.HTTPError` raised by `raise_for_status`, any other unexpected
exception, or a parsed JSON body whose `products` key holds `ps`. -/
inductive AttemptOutcome where
  | transportErr
  | httpErr
  | otherErr
  | ok (ps : List RawProduct)

/-- Observable outcome of one `search_food` call: the (translated) query
string sent, the returned product list, the sequence of `time.sleep`
durations in seconds, the number of HTTP attempts issued, and whether the
final "음식 검색에 실패했습니다" failure notice was surfaced. -/
structure SearchResult where
  querySent : String
  products : List RawProduct
  delays : List ℚ
  attempts : Nat
  failureNotice : Bool

/-- The `for attempt in range(max_retries)` loop of `search_food`
(app.py:389-409): the first argument is the index of the next attempt, the
second the remaining iterations, `delays` the sleeps recorded so far.
On success the products are returned with no failure notice; on a
transport error the loop sleeps `backoff_factor * 2 ** attempt` seconds
and continues; on an HTTP-level or unexpected error it breaks; when the
range is exhausted it falls through. Every non-success exit surfaces the
failure notice and returns the empty list (app.py:410-411). -/
def searchFoodGo (outcomes : Nat → AttemptOutcome) (bf : ℚ) :
    Nat → Nat → List ℚ → (List RawProduct × List ℚ × Nat × Bool)
  | attempt, 0, delays => ([], delays, attempt, true)
  | attempt, r + 1, delays =>
    match outcomes attempt with
    | .ok ps => (ps, delays, attempt + 1, false)
    | .transportErr =>
        searchFoodGo outcomes bf (attempt + 1) r (delays ++ [bf * 2 ^ attempt])
    | .httpErr => ([], delays, attempt + 1, true)
    | .otherErr => ([], delays, attempt + 1, true)

/-- Model of `search_food(query, max_retries=3, backoff_factor=0.3)`
(app.py:363-411): translate the query to English via
`translate_to_english_cached` (fail-open), then run the retry loop against
the attempt oracle. -/
def search_food (liveEn : LiveResult) (outcomes : Nat → AttemptOutcome)
    (query : String) (max_retries : Nat) (backoff_factor : ℚ) : SearchResult :=
  let tq := translate_to_english_cached liveEn query
  match searchFoodGo outcomes backoff_factor 0 max_retries [] with
  | (ps, ds, att, fail) => ⟨tq, ps, ds, att, fail⟩

/-! ## Nutrition lookup (`get_nutrition_info`, app.py:414-439) -/

/-- A JSON scalar as seen by the nutrition extractor: a number or a
string. -/
inductive PyVal where
  | num (q : ℚ)
  | str (s : String)
  deriving Repr, DecidableEq

/-- Value of a digit sequence read left to right. -/
def digitsVal (cs : List Char) : ℕ :=
  cs.foldl (fun n c => 10 * n + (c.toNat - 48)) 0

/-- Strip surrounding ASCII whitespace (Python `float` ignores it). -/
def trimChars (cs : List Char) : List Char :=
  ((cs.dropWhile (fun c => c = ' ')).reverse.dropWhile (fun c => c = ' ')).reverse

/-- Model of Python `float(s)` on plain decimal literals: optional
surrounding whitespace, optional sign, digits with an optional fractional
part (at least one digit overall). Strings outside this shape (such as
`"abc"`) make `float` raise, modelled as `none`. Exponent and
infinity/nan forms are not used by the OpenFoodFacts per-100g fields and
are not modelled. -/
def parseFloatChars (cs : List Char) : Option ℚ :=
  let signed : ℚ × List Char :=
    match cs with
    | '-' :: r => (-1, r)
    | '+' :: r => (1, r)
    | r => (1, r)
  let sgn := signed.1
  let body := signed.2
  let intPart := body.takeWhile (fun c => c ≠ '.')
  match body.dropWhile (fun c => c ≠ '.') with
  | [] =>
    if intPart ≠ [] ∧ intPart.all Char.isDigit then
      some (sgn * digitsVal intPart)
    else none
  | _ :: frac =>
    if '.' ∈ frac then none
    else if (intPart ≠ [] ∨ frac ≠ []) ∧ intPart.all Char.isDigit ∧
        frac.all Char.isDigit then
      some (sgn * ((digitsVal intPart : ℚ) + (digitsVal frac : ℚ) / 10 ^ frac.length))
    else none

/-- Python `float(s)` on a string argument. -/
def parseFloat? (s : String) : Option ℚ :=
  parseFloatChars (trimChars s.toList)

/-- Python `float(v)` on a JSON scalar: numbers convert to themselves,
strings go through the decimal parser, anything unparsable raises
(`none`). -/
def pyFloat : PyVal → Option ℚ
  | .num q => some q
  | .str s => parseFloat? s

/-- Python `data.get('status') == 1`: only a numeric value equal to 1
compares equal to the integer 1 (a string `"1"` does not). -/
def pyEqOne : Option PyVal → Bool
  | some (.num q) => q == 1
  | _ => false

/-- The `nutriments` sub-object restricted to the four per-100g keys read
by `get_nutrition_info`; `none` models an absent key. -/
structure Nutriments where
  energy_kcal_100g : Option PyVal
  proteins_100g : Option PyVal
  carbohydrates_100g : Option PyVal
  fat_100g : Option PyVal
  deriving Repr, DecidableEq

/-- The `product` sub-object of the per-barcode response. -/
structure NutriProduct where
  product_name : Option String
  nutriments : Option Nutriments
  deriving Repr, DecidableEq

/-- The parsed per-barcode JSON body `{status, product}`. -/
structure NutriData where
  status : Option PyVal
  product : Option NutriProduct
  deriving Repr, DecidableEq

/-- Outcome of the single HTTP attempt in `get_nutrition_info`: transport
exception, `raise_for_status` failure, JSON decoding failure, or a parsed
body. -/
inductive FetchOutcome where
  | transportErr
  | httpErr
  | jsonErr
  | ok (data : NutriData)

/-- The record built in the `status == 1` branch (app.py:423-429). -/
structure NutritionInfo where
  name : String
  calories : ℚ
  proteins : ℚ
  carbs : ℚ
  fats : ℚ
  deriving Repr, DecidableEq

/-- An absent `nutriments` object, as produced by the `.get(..., {})`
defaults in the source. -/
def emptyNutriments : Nutriments := ⟨none, none, none, none⟩

/-- An absent `product` object (`data.get('product', {})`). -/
def emptyNutriProduct : NutriProduct := ⟨none, emptyNutriments⟩

/-- Model of `get_nutrition_info(barcode)` (app.py:414-439), with the HTTP
exchange abstracted into `fetch`. Only a `status == 1` body in which all
four `float(...)` conversions succeed yields a record; the absent-key
default is `0`; any exception — transport, HTTP, JSON, or a `float()`
failure on a non-numeric field — is caught and the function returns the
empty dict, modelled as `none`. -/
def get_nutrition_info (fetch : FetchOutcome) : Option NutritionInfo :=
  match fetch with
  | .ok data =>
    if pyEqOne data.status then
      let product := data.product.getD emptyNutriProduct
      let nutriments := product.nutriments.getD emptyNutriments
      match pyFloat (nutriments.energy_kcal_100g.getD (.num 0)),
            pyFloat (nutriments.proteins_100g.getD (.num 0)),
            pyFloat (nutriments.carbohydrates_100g.getD (.num 0)),
            pyFloat (nutriments.fat_100g.getD (.num 0)) with
      | some c, some p, some cb, some f =>
          some ⟨product.product_name.getD "이름 없음", c, p, cb, f⟩
      | _, _, _, _ => none
    else none
  | _ => none

/-- Concrete `status == 1` response whose calories field is the
non-numeric string `"abc"`. -/
def nonNumericResponse : NutriData :=
  { status := some (.num 1)
    product := some
      { product_name := some "Bad Product"
        nutriments := some
          { energy_kcal_100g := some (.str "abc")
            proteins_100g := none
            carbohydrates_100g := none
            fat_100g := none } } }

/-- Concrete `status == 1` response with numeric fields and one absent
field, used to witness the extraction theorem. -/
def witnessNutriData : NutriData :=
  { status := some (.num 1)
    product := some
      { product_name := some "Oat Bar"
        nutriments := some
          { energy_kcal_100g := some (.num 5)
            proteins_100g := none
            carbohydrates_100g := some (.num 3)
            fat_100g := some (.num 2) } } }

/-! ## Relational store (users / meals / manual_meals tables) -/

/-- A `datetime` value: whole seconds since the epoch plus a microsecond
part. `strftime('%Y-%m-%d %H:%M:%S')` renders exactly the whole-second
part (injectively), so the formatted string is represented by that
second count. -/
structure Timestamp where
  sec : ℕ
  micro : ℕ
  deriving Repr, DecidableEq

/-- Rendering `date.strftime('%Y-%m-%d %H:%M:%S')` (app.py:536, 544): the
formatted string, represented by the whole-second count it displays (the
microsecond part is dropped). -/
def fmtTimestamp (t : Timestamp) : ℕ := t.sec

/-- Parsing `datetime.strptime(s, '%Y-%m-%d %H:%M:%S')` (app.py:584, 593):
the inverse of the rendering; the microsecond part comes back as zero. -/
def parseTimestamp (n : ℕ) : Timestamp := ⟨n, 0⟩

/-- A row of the `meals` table (app.py:26-35). The nutrition columns are
nullable `Float`s with default 0.0, so a stored value is an optional
rational. -/
structure MealRow where
  id : ℕ
  user_id : ℕ
  name : String
  calories : Option ℚ
  proteins : Option ℚ
  carbs : Option ℚ
  fats : Option ℚ
  date : Timestamp
  deriving Repr, DecidableEq

/-- A row of the `manual_meals` table (app.py:38-43). -/
structure ManualMealRow where
  id : ℕ
  user_id : ℕ
  name : String
  date : Timestamp
  deriving Repr, DecidableEq

/-- A row of the `users` table (app.py:46-52). -/
structure UserRow where
  id : ℕ
  username : String
  password : String
  deriving Repr, DecidableEq

/-- The persistent store: the three user-scoped tables, the translation
cache, and the autoincrement counters for the integer primary keys. -/
structure DB where
  users : List UserRow
  meals : List MealRow
  manual_meals : List ManualMealRow
  translations : TransDB
  next_user_id : ℕ
  next_meal_id : ℕ
  next_manual_id : ℕ
  deriving Repr, DecidableEq

/-- Model of `get_diets(user_id)` (app.py:147-156):
`session.query(Meal).filter_by(user_id=user_id).all()`. -/
def get_diets (db : DB) (u : ℕ) : List MealRow :=
  db.meals.filter (fun m => m.user_id == u)

/-- Model of `get_manual_meals(user_id)` (app.py:159-168). -/
def get_manual_meals (db : DB) (u : ℕ) : List ManualMealRow :=
  db.manual_meals.filter (fun m => m.user_id == u)

/-- Input dict for `add_diet` (a nutrition record); `none` models an
absent key, defaulted to 0.0 by `meal.get(..., 0.0)` (app.py:111-114). -/
structure MealInput where
  name : String
  calories : Option ℚ
  proteins : Option ℚ
  carbs : Option ℚ
  fats : Option ℚ
  deriving Repr, DecidableEq

/-- Model of `add_diet(user_id, meal)` (app.py:105-125): insert a fresh
`Meal` row; the `date` column defaults to the current time `now`. -/
def add_diet (now : Timestamp) (u : ℕ) (meal : MealInput) (db : DB) : DB :=
  { db with
    meals := db.meals ++
      [⟨db.next_meal_id, u, meal.name, some (meal.calories.getD 0),
        some (meal.proteins.getD 0), some (meal.carbs.getD 0),
        some (meal.fats.getD 0), now⟩]
    next_meal_id := db.next_meal_id + 1 }

/-- Model of `add_manual_meal(user_id, meal)` (app.py:128-144). -/
def add_manual_meal (now : Timestamp) (u : ℕ) (name : String) (db : DB) : DB :=
  { db with
    manual_meals := db.manual_meals ++ [⟨db.next_manual_id, u, name, now⟩]
    next_manual_id := db.next_manual_id + 1 }

/-- The four running totals computed by `show_statistics_with_chatbot`
(app.py:926-930): `sum([meal.X or 0 for meal in meals])` over
`get_diets(user_id)`, where `or 0` maps a NULL column to 0. -/
structure NutritionTotals where
  calories : ℚ
  proteins : ℚ
  carbs : ℚ
  fats : ℚ
  deriving Repr, DecidableEq

/-- The statistics summary of `show_statistics_with_chatbot`
(app.py:913-938), restricted to its data content. -/
def show_statistics_totals (db : DB) (u : ℕ) : NutritionTotals :=
  let meals := get_diets db u
  { calories := (meals.map (fun m => m.calories.getD 0)).sum
    proteins := (meals.map (fun m => m.proteins.getD 0)).sum
    carbs := (meals.map (fun m => m.carbs.getD 0)).sum
    fats := (meals.map (fun m => m.fats.getD 0)).sum }

/-- Model of `reset_database_tables()` (app.py:505-521): delete the session
user's `Meal` rows, the session user's `ManualMeal` rows, and every
`ProductTranslation` row; commit. -/
def reset_database_tables (u : ℕ) (db : DB) : DB :=
  { db with
    meals := db.meals.filter (fun m => !(m.user_id == u))
    manual_meals := db.manual_meals.filter (fun m => !(m.user_id == u))
    translations := ⟨[]⟩ }

/-! ## Backup and restore (app.py:524-609) -/

/-- One element of the `meals` array of a backup file (app.py:529-537).
The `date` field holds the `strftime` string; the nutrition fields hold the
column values (JSON `null` for a NULL column, modelled as `none`; the keys
themselves are always written by `backup_data`). -/
structure BackupMealRec where
  id : ℕ
  name : String
  calories : Option ℚ
  proteins : Option ℚ
  carbs : Option ℚ
  fats : Option ℚ
  date : ℕ
  deriving Repr, DecidableEq

/-- One element of the `manual_meals` array of a backup file
(app.py:541-545). -/
structure BackupManualRec where
  id : ℕ
  name : String
  date : ℕ
  deriving Repr, DecidableEq

/-- The backup JSON document `{meals, manual_meals}` (app.py:547-550). -/
structure BackupFile where
  meals : List BackupMealRec
  manual_meals : List BackupManualRec
  deriving Repr, DecidableEq

/-- Model of `backup_data(user_id)` (app.py:524-559): serialise the user's
rows in query order. -/
def backup_data (db : DB) (u : ℕ) : BackupFile :=
  { meals := (get_diets db u).map (fun m =>
      ⟨m.id, m.name, m.calories, m.proteins, m.carbs, m.fats,
        fmtTimestamp m.date⟩)
    manual_meals := (get_manual_meals db u).map (fun m =>
      ⟨m.id, m.name, fmtTimestamp m.date⟩) }

/-- One iteration of the `for meal in meals:` insertion loop of
`restore_data` (app.py:576-586): a fresh `Meal` row under the restoring
user with a new autoincrement id and the parsed `date`. -/
def insertMealFromRec (u : ℕ) (d : DB) (r : BackupMealRec) : DB :=
  { d with
    meals := d.meals ++
      [⟨d.next_meal_id, u, r.name, r.calories, r.proteins, r.carbs, r.fats,
        parseTimestamp r.date⟩]
    next_meal_id := d.next_meal_id + 1 }

/-- One iteration of the `for manual_meal in manual_meals:` insertion loop
of `restore_data` (app.py:589-595). -/
def insertManualFromRec (u : ℕ) (d : DB) (r : BackupManualRec) : DB :=
  { d with
    manual_meals := d.manual_meals ++
      [⟨d.next_manual_id, u, r.name, parseTimestamp r.date⟩]
    next_manual_id := d.next_manual_id + 1 }

/-- Model of `restore_data(user_id, file)` (app.py:562-609) on a
well-formed backup document: insert every meal record, then every
manual-meal record, under `user_id`, and commit. -/
def restore_data (u : ℕ) (f : BackupFile) (db : DB) : DB :=
  f.manual_meals.foldl (insertManualFromRec u)
    (f.meals.foldl (insertMealFromRec u) db)

/-- The content of a meal row that the round-trip claim compares: name,
the four nutrition values, and the timestamp through its formatted string
form (ids excluded). -/
def mealContent (m : MealRow) :
    String × Option ℚ × Option ℚ × Option ℚ × Option ℚ × ℕ :=
  (m.name, m.calories, m.proteins, m.carbs, m.fats, fmtTimestamp m.date)

/-- The content of a manual-meal row that the round-trip claim compares. -/
def manualContent (m : ManualMealRow) : String × ℕ :=
  (m.name, fmtTimestamp m.date)

/-- Model of `create_user(username, password)` (app.py:72-87 and
`src/data/database.py:18-40`): if a row with the username exists return
`False` and change nothing; otherwise insert a row whose password is the
bcrypt hash (modelled by the oracle `hash`) and return `True`. -/
def create_user (hash : String → String) (db : DB)
    (username pw : String) : Bool × DB :=
  if db.users.any (fun r => r.username == username) then (false, db)
  else
    (true,
      { db with
        users := db.users ++ [⟨db.next_user_id, username, hash pw⟩]
        next_user_id := db.next_user_id + 1 })

/-! ## Concrete stores used by the witnesses -/

/-- A fixed sample timestamp. -/
def ts0 : Timestamp := ⟨0, 0⟩

/-- A translation cache holding one row, for the cache-hit witness. -/
def c4db : TransDB := ⟨[("123", "닭가슴살")]⟩

/-- A store with two users, meals and manual meals for both, and one
cached translation. -/
def c9db : DB :=
  { users := [⟨1, "alice", "h1"⟩, ⟨2, "bob", "h2"⟩]
    meals := [⟨1, 1, "밥", some 300, some 6, some 60, some 1, ts0⟩,
              ⟨2, 2, "김치", some 20, some 1, some 3, some 0, ts0⟩]
    manual_meals := [⟨1, 1, "물", ts0⟩, ⟨2, 2, "차", ts0⟩]
    translations := ⟨[("123", "닭가슴살")]⟩
    next_user_id := 3
    next_meal_id := 3
    next_manual_id := 3 }

/-- A store with an existing user named "alice", for the duplicate-signup
witness. -/
def c10db : DB :=
  { users := [⟨1, "alice", "h1"⟩]
    meals := []
    manual_meals := []
    translations := ⟨[]⟩
    next_user_id := 2
    next_meal_id := 1
    next_manual_id := 1 }

/-- A store in which user 1 owns two meals (one with a NULL proteins
column and a nonzero microsecond part) and one manual meal. -/
def c8db : DB :=
  { users := [⟨1, "alice", "h1"⟩, ⟨2, "bob", "h2"⟩]
    meals := [⟨1, 1, "밥", some 300, some 6, some 60, some 1, ⟨10, 5⟩⟩,
              ⟨2, 1, "김치", some 20, none, some 3, some 0, ⟨20, 0⟩⟩,
              ⟨3, 2, "차", some 1, some 0, some 0, some 0, ⟨30, 0⟩⟩]
    manual_meals := [⟨1, 1, "물", ⟨40, 7⟩⟩]
    translations := ⟨[]⟩
    next_user_id := 3
    next_meal_id := 4
    next_manual_id := 2 }

/-- A store whose user 5 is fresh (owns no rows), the restore target of
the round-trip witness. -/
def c8empty : DB :=
  { users := [⟨5, "carol", "h5"⟩]
    meals := []
    manual_meals := []
    translations := ⟨[]⟩
    next_user_id := 6
    next_meal_id := 1
    next_manual_id := 1 }

/-! ## Helper lemmas -/

/-- Every row key the cache can ever acquire is a nonempty barcode:
`translate_to_korean_cached` only persists under a truthy barcode, so the
nonempty-barcode hypothesis of the cache-hit theorem holds on every
reachable cache state. -/
lemma translate_preserves_nonempty_keys (live : LiveResult) (persistOk : Bool)
    (db : TransDB) (text : String) (barcode : Option String)
    (h : ∀ r ∈ db.rows, r.1 ≠ "") :
    ∀ r ∈ (translate_to_korean_cached live persistOk db text barcode).db.rows,
      r.1 ≠ "" := by
  unfold translate_to_korean_cached
  rcases barcode with _ | b
  · rcases live with t | _ <;> simpa using h
  · by_cases hb : b = ""
    · simp only [effBarcode, hb, if_pos rfl]
      rcases live with t | _ <;> simpa using h
    · simp only [effBarcode, if_neg hb]
      rcases hl : lookupTrans db b with _ | n
      · rcases live with t | _
        · by_cases hp : persistOk
          · simp only [hl, hp, if_pos]
            intro r hr
            rcases List.mem_append.mp hr with hr | hr
            · exact h r hr
            · simp only [List.mem_singleton] at hr
              subst hr
              exact hb
          · simp only [hl, hp, if_neg]
            simpa using h
        · simp only [hl]
          simpa using h
      · simp only [hl]
        simpa using h

/-- Closed form of the retry loop when every attempt within range fails at
the transport level: the loop issues all remaining attempts, recording one
exponentially growing sleep per attempt, and falls through with the
failure flag set. -/
lemma searchFoodGo_all_transport (outcomes : Nat → AttemptOutcome) (bf : ℚ)
    (r : ℕ) : ∀ (a : ℕ) (delays : List ℚ),
    (∀ i, a ≤ i → i < a + r → outcomes i = .transportErr) →
    searchFoodGo outcomes bf a r delays
      = ([], delays ++ (List.range r).map (fun i => bf * 2 ^ (a + i)),
          a + r, true) := by
  induction r with
  | zero => intro a delays _; simp [searchFoodGo]
  | succ n ih =>
    intro a delays h
    have ha : outcomes a = .transportErr := h a le_rfl (by omega)
    have hrec := ih (a + 1) (delays ++ [bf * 2 ^ a])
      (fun i h1 h2 => h i (by omega) (by omega))
    have hfun : (fun i => bf * 2 ^ (a + 1 + i))
        = (fun i => bf * 2 ^ (a + (i + 1))) := by
      funext i
      rw [show a + 1 + i = a + (i + 1) by omega]
    simp only [searchFoodGo, ha, hrec, hfun]
    rw [List.append_assoc, List.range_succ_eq_map]
    simp [List.map_map]
    omega

/-- Filtering a list for a key and then for the same key's complement
leaves nothing. -/
lemma filter_erase_then_self {α : Type} (key : α → ℕ) (l : List α) (u : ℕ) :
    (l.filter (fun a => !(key a == u))).filter (fun a => key a == u) = [] := by
  induction l with
  | nil => rfl
  | cons a t ih => by_cases h : key a = u <;> simp [List.filter_cons, h, ih]

/-- Removing the rows of one key does not disturb the rows of a different
key. -/
lemma filter_erase_other {α : Type} (key : α → ℕ) (l : List α) (u v : ℕ)
    (hvu : v ≠ u) :
    (l.filter (fun a => !(key a == u))).filter (fun a => key a == v)
      = l.filter (fun a => key a == v) := by
  induction l with
  | nil => rfl
  | cons a t ih =>
    by_cases h : key a = u
    · have hv : ¬ key a = v := fun e => hvu (e.symm.trans h)
      simp [List.filter_cons, h, hv, ih, Ne.symm hvu]
    · by_cases h2 : key a = v <;>
        simp [List.filter_cons, h, h2, ih, hvu, Ne.symm hvu]

/-- The meal-insertion loop of `restore_data` never touches the users
table. -/
lemma foldl_insertMeal_users (u : ℕ) (recs : List BackupMealRec) (d : DB) :
    (recs.foldl (insertMealFromRec u) d).users = d.users := by
  induction recs generalizing d with
  | nil => rfl
  | cons r rs ih =>
    rw [List.foldl_cons, ih]
    rfl

/-- The manual-meal-insertion loop of `restore_data` never touches the
users table. -/
lemma foldl_insertManual_users (u : ℕ) (recs : List BackupManualRec)
    (d : DB) : (recs.foldl (insertManualFromRec u) d).users = d.users := by
  induction recs generalizing d with
  | nil => rfl
  | cons r rs ih =>
    rw [List.foldl_cons, ih]
    rfl

/-- The manual-meal-insertion loop never touches the meals table. -/
lemma foldl_insertManual_meals (u : ℕ) (recs : List BackupManualRec)
    (d : DB) : (recs.foldl (insertManualFromRec u) d).meals = d.meals := by
  induction recs generalizing d with
  | nil => rfl
  | cons r rs ih =>
    rw [List.foldl_cons, ih]
    rfl

/-- The meal-insertion loop never touches the manual-meals table. -/
lemma foldl_insertMeal_manual (u : ℕ) (recs : List BackupMealRec) (d : DB) :
    (recs.foldl (insertMealFromRec u) d).manual_meals = d.manual_meals := by
  induction recs generalizing d with
  | nil => rfl
  | cons r rs ih =>
    rw [List.foldl_cons, ih]
    rfl

/-- Content of the restoring user's meal rows after the insertion loop:
the previous content followed by the records in file order (ids are
re-assigned, the parsed timestamp renders back to the stored string). -/
lemma foldl_insertMeal_content (u : ℕ) (recs : List BackupMealRec) (d : DB) :
    (get_diets (recs.foldl (insertMealFromRec u) d) u).map mealContent
      = (get_diets d u).map mealContent
        ++ recs.map (fun r =>
            (r.name, r.calories, r.proteins, r.carbs, r.fats, r.date)) := by
  induction recs generalizing d with
  | nil => simp
  | cons r rs ih =>
    rw [List.foldl_cons, ih]
    have hstep : get_diets (insertMealFromRec u d r) u
        = get_diets d u ++
          [⟨d.next_meal_id, u, r.name, r.calories, r.proteins, r.carbs,
            r.fats, parseTimestamp r.date⟩] := by
      simp [get_diets, insertMealFromRec, List.filter_append]
    rw [hstep]
    simp [mealContent, fmtTimestamp, parseTimestamp]

/-- Content of the restoring user's manual-meal rows after the insertion
loop. -/
lemma foldl_insertManual_content (u : ℕ) (recs : List BackupManualRec)
    (d : DB) :
    (get_manual_meals (recs.foldl (insertManualFromRec u) d) u).map
        manualContent
      = (get_manual_meals d u).map manualContent
        ++ recs.map (fun r => (r.name, r.date)) := by
  induction recs generalizing d with
  | nil => simp
  | cons r rs ih =>
    rw [List.foldl_cons, ih]
    have hstep : get_manual_meals (insertManualFromRec u d r) u
        = get_manual_meals d u ++
          [⟨d.next_manual_id, u, r.name, parseTimestamp r.date⟩] := by
      simp [get_manual_meals, insertManualFromRec, List.filter_append]
    rw [hstep]
    simp [manualContent, fmtTimestamp, parseTimestamp]

/-! ## Claim theorems -/

/-- C1: when every attempt of `search_food` fails with a transport-level
failure, the function issues exactly `max_retries` attempts (the retry
counter the source itself displays as 재시도 attempt+1/max_retries), the
recorded sleep before each successive retry is `backoff_factor * 2 ^
attempt` seconds and strictly increasing, and the call returns the empty
product list and surfaces the failure notice. -/
theorem search_food_all_transport_failures (liveEn : LiveResult)
    (outcomes : Nat → AttemptOutcome) (query : String) (max_retries : Nat)
    (backoff_factor : ℚ)
    (hfail : ∀ i, i < max_retries → outcomes i = .transportErr)
    (hbf : 0 < backoff_factor) :
    (search_food liveEn outcomes query max_retries backoff_factor).products
        = [] ∧
    (search_food liveEn outcomes query max_retries backoff_factor).attempts
        = max_retries ∧
    (search_food liveEn outcomes query max_retries backoff_factor).failureNotice
        = true ∧
    (search_food liveEn outcomes query max_retries backoff_factor).delays
        = (List.range max_retries).map (fun i => backoff_factor * 2 ^ i) ∧
    (search_food liveEn outcomes query max_retries
        backoff_factor).delays.Pairwise (· < ·) := by
  have hgo := searchFoodGo_all_transport outcomes backoff_factor max_retries 0
    [] (fun i h1 h2 => hfail i (by omega))
  have hsf : search_food liveEn outcomes query max_retries backoff_factor
      = ⟨translate_to_english_cached liveEn query, [],
          (List.range max_retries).map (fun i => backoff_factor * 2 ^ i),
          max_retries, true⟩ := by
    simp only [search_food, hgo]
    simp
  refine ⟨by rw [hsf], by rw [hsf], by rw [hsf], by rw [hsf], ?_⟩
  rw [hsf]
  refine List.Pairwise.map _ (fun a b hab => ?_)
    (List.pairwise_lt_range max_retries)
  exact mul_lt_mul_of_pos_left (pow_lt_pow_right₀ one_lt_two hab) hbf

/-- C1 witness: three attempts against an always-resetting connection with
the default parameters `max_retries = 3`, `backoff_factor = 0.3`. -/
theorem search_food_all_transport_failures_witness :
    (∀ i, i < 3 → (fun _ => AttemptOutcome.transportErr) i = .transportErr) ∧
    (0 : ℚ) < 3 / 10 ∧
    (search_food .err (fun _ => .transportErr) "닭가슴살" 3 (3 / 10)).products
        = [] ∧
    (search_food .err (fun _ => .transportErr) "닭가슴살" 3 (3 / 10)).attempts
        = 3 ∧
    (search_food .err (fun _ => .transportErr) "닭가슴살" 3
        (3 / 10)).failureNotice = true ∧
    (search_food .err (fun _ => .transportErr) "닭가슴살" 3 (3 / 10)).delays
        = (List.range 3).map (fun i => (3 : ℚ) / 10 * 2 ^ i) ∧
    (search_food .err (fun _ => .transportErr) "닭가슴살" 3
        (3 / 10)).delays.Pairwise (· < ·) := by
  refine ⟨fun i _ => rfl, by norm_num, ?_⟩
  have h := search_food_all_transport_failures .err (fun _ => .transportErr)
    "닭가슴살" 3 (3 / 10) (fun i _ => rfl) (by norm_num)
  exact ⟨h.1, h.2.1, h.2.2.1, h.2.2.2.1, h.2.2.2.2⟩

/-- C2 (refuting the claimed equivalence): the paginated listing and the
search-results path do not compute the same display record for every raw
record. At `divergingProduct` (a record with a pre-localized Korean name
but no barcode) the listing ignores `product_name_KR` and shows the
(fail-open) translation of the English name, while the search path shows
the Korean name; at `namelessProduct` the listing shows the no-name
sentinel while the search path drops the record entirely. -/
theorem projection_call_sites_diverge :
    (projListing failOpenT divergingProduct).name = "Kimchi" ∧
    (projSearchRecord failOpenT divergingProduct).map DisplayProduct.name
      = some "김치" ∧
    ("Kimchi" : String) ≠ "김치" ∧
    (projListing failOpenT namelessProduct).name = "이름 없음" ∧
    projSearchRecord failOpenT namelessProduct = none := by
  refine ⟨?_, ?_, by decide, ?_, ?_⟩ <;> rfl

/-- C3 counterexample: a `status == 1` response whose calories field is
the non-numeric string "abc" makes `get_nutrition_info` return the empty
dict — the non-numeric field is not replaced by 0.0 as the claim states,
it aborts the whole lookup. -/
theorem nutrition_non_numeric_is_empty :
    get_nutrition_info (.ok nonNumericResponse) = none := by
  decide

/-- C3 amended: when the per-barcode response has `status == 1` and every
per-100g field converts under Python `float` (absent fields default to 0),
`get_nutrition_info` returns the record of those float values with the
default display name; if any present per-100g field is non-numeric, the
lookup instead returns the empty result. -/
theorem nutrition_status_one_extraction :
    (∀ (d : NutriData) (c p cb f : ℚ),
      pyEqOne d.status = true →
      pyFloat (((d.product.getD emptyNutriProduct).nutriments.getD
        emptyNutriments).energy_kcal_100g.getD (.num 0)) = some c →
      pyFloat (((d.product.getD emptyNutriProduct).nutriments.getD
        emptyNutriments).proteins_100g.getD (.num 0)) = some p →
      pyFloat (((d.product.getD emptyNutriProduct).nutriments.getD
        emptyNutriments).carbohydrates_100g.getD (.num 0)) = some cb →
      pyFloat (((d.product.getD emptyNutriProduct).nutriments.getD
        emptyNutriments).fat_100g.getD (.num 0)) = some f →
      get_nutrition_info (.ok d)
        = some ⟨(d.product.getD emptyNutriProduct).product_name.getD
            "이름 없음", c, p, cb, f⟩) ∧
    (∀ d : NutriData,
      pyEqOne d.status = true →
      (pyFloat (((d.product.getD emptyNutriProduct).nutriments.getD
          emptyNutriments).energy_kcal_100g.getD (.num 0)) = none ∨
        pyFloat (((d.product.getD emptyNutriProduct).nutriments.getD
          emptyNutriments).proteins_100g.getD (.num 0)) = none ∨
        pyFloat (((d.product.getD emptyNutriProduct).nutriments.getD
          emptyNutriments).carbohydrates_100g.getD (.num 0)) = none ∨
        pyFloat (((d.product.getD emptyNutriProduct).nutriments.getD
          emptyNutriments).fat_100g.getD (.num 0)) = none) →
      get_nutrition_info (.ok d) = none) := by
  constructor
  · intro d c p cb f hst hc hp hcb hf
    simp [get_nutrition_info, hst, hc, hp, hcb, hf]
  · intro d hst h
    rcases ha : pyFloat (((d.product.getD emptyNutriProduct).nutriments.getD
        emptyNutriments).energy_kcal_100g.getD (.num 0)) with _ | c1 <;>
      rcases hb : pyFloat (((d.product.getD emptyNutriProduct).nutriments.getD
          emptyNutriments).proteins_100g.getD (.num 0)) with _ | c2 <;>
        rcases hd : pyFloat (((d.product.getD
            emptyNutriProduct).nutriments.getD
            emptyNutriments).carbohydrates_100g.getD (.num 0)) with _ | c3 <;>
          rcases he : pyFloat (((d.product.getD
              emptyNutriProduct).nutriments.getD
              emptyNutriments).fat_100g.getD (.num 0)) with _ | c4 <;>
            simp_all [get_nutrition_info]

/-- C3 witness: a found product with numeric calories/carbs/fats and an
absent proteins field extracts to the corresponding record with proteins
defaulted to 0. -/
theorem nutrition_status_one_extraction_witness :
    pyEqOne witnessNutriData.status = true ∧
    get_nutrition_info (.ok witnessNutriData)
      = some ⟨"Oat Bar", 5, 0, 3, 2⟩ := by
  refine ⟨by decide, ?_⟩
  exact nutrition_status_one_extraction.1 witnessNutriData 5 0 3 2
    (by decide) rfl rfl rfl rfl

/-- C4: when a translation-cache row exists for a (nonempty) barcode,
every call to `translate_to_korean_cached` with that barcode returns the
stored translated name, performs no live translation call, leaves the
cache unchanged, and therefore returns the same value on every repeated
call regardless of the text, the translator, or commit behaviour. (By
`translate_preserves_nonempty_keys`, every row the cache can acquire has a
nonempty barcode.) -/
theorem translate_cache_hit_returns_stored (live : LiveResult)
    (persistOk : Bool) (db : TransDB) (text b n : String)
    (hb : b ≠ "") (hrow : lookupTrans db b = some n) :
    translate_to_korean_cached live persistOk db text (some b) = ⟨n, db, 0⟩ ∧
    ∀ (live₂ : LiveResult) (persistOk₂ : Bool) (text₂ : String),
      (translate_to_korean_cached live₂ persistOk₂ db text₂ (some b)).result
        = n := by
  have heff : effBarcode (some b) = some b := by simp [effBarcode, hb]
  constructor
  · simp [translate_to_korean_cached, heff, hrow]
  · intro live₂ persistOk₂ text₂
    simp [translate_to_korean_cached, heff, hrow]

/-- C4 witness: a cache holding ("123", "닭가슴살") answers barcode "123"
from the store with zero live calls and an unchanged cache. -/
theorem translate_cache_hit_returns_stored_witness :
    ("123" : String) ≠ "" ∧ lookupTrans c4db "123" = some "닭가슴살" ∧
    translate_to_korean_cached .err true c4db "Chicken Breast" (some "123")
      = ⟨"닭가슴살", c4db, 0⟩ := by
  refine ⟨by decide, by decide, ?_⟩
  exact (translate_cache_hit_returns_stored .err true c4db "Chicken Breast"
    "123" "닭가슴살" (by decide) (by decide)).1

/-- C5: translation is fail-open. If the live translator raises (network
or service failure) on a cache miss, `translate_to_korean_cached` returns
the original text with the cache unchanged; if the live call succeeds but
persisting the cache row fails, it still returns the original text with
the cache unchanged; and `translate_to_english_cached` returns its input
text whenever the live call raises. -/
theorem translation_fail_open :
    (∀ (db : TransDB) (text : String) (bc : Option String) (persistOk : Bool),
      (∀ b ∈ effBarcode bc, lookupTrans db b = none) →
      translate_to_korean_cached .err persistOk db text bc = ⟨text, db, 1⟩) ∧
    (∀ (db : TransDB) (text b tr : String),
      b ≠ "" → lookupTrans db b = none →
      translate_to_korean_cached (.ok tr) false db text (some b)
        = ⟨text, db, 1⟩) ∧
    (∀ text : String, translate_to_english_cached .err text = text) := by
  refine ⟨?_, ?_, fun _ => rfl⟩
  · intro db text bc persistOk hmiss
    rcases hbc : effBarcode bc with _ | b
    · simp [translate_to_korean_cached, hbc]
    · have := hmiss b (by rw [hbc]; rfl)
      simp [translate_to_korean_cached, hbc, this]
  · intro db text b tr hb hmiss
    have heff : effBarcode (some b) = some b := by simp [effBarcode, hb]
    simp [translate_to_korean_cached, heff, hmiss]

/-- C5 witness: against an empty cache, a failing live call and a failing
persist both return the original text, and the English direction returns
its input on failure. -/
theorem translation_fail_open_witness :
    (∀ b ∈ effBarcode (some "123"), lookupTrans ⟨[]⟩ b = none) ∧
    translate_to_korean_cached .err true ⟨[]⟩ "Chicken" (some "123")
      = ⟨"Chicken", ⟨[]⟩, 1⟩ ∧
    translate_to_korean_cached (.ok "닭") false ⟨[]⟩ "Chicken" (some "123")
      = ⟨"Chicken", ⟨[]⟩, 1⟩ ∧
    translate_to_english_cached .err "닭가슴살" = "닭가슴살" := by
  refine ⟨?_, ?_, ?_, translation_fail_open.2.2 "닭가슴살"⟩
  · intro b hb
    rfl
  · exact translation_fail_open.1 ⟨[]⟩ "Chicken" (some "123") true
      (fun b _ => rfl)
  · exact translation_fail_open.2.1 ⟨[]⟩ "Chicken" "123" "닭" (by decide) rfl

/-- C6: a per-barcode response whose status is not the number 1 makes
`get_nutrition_info` return the empty result, and so does every transport,
HTTP or JSON-parsing failure — never a zero-filled record. -/
theorem nutrition_empty_on_not_found :
    (∀ d : NutriData, pyEqOne d.status = false →
      get_nutrition_info (.ok d) = none) ∧
    get_nutrition_info .transportErr = none ∧
    get_nutrition_info .httpErr = none ∧
    get_nutrition_info .jsonErr = none := by
  refine ⟨fun d hd => ?_, rfl, rfl, rfl⟩
  simp [get_nutrition_info, hd]

/-- C6 witness: a `status == 0` body yields the empty result. -/
theorem nutrition_empty_on_not_found_witness :
    pyEqOne (some (.num 0)) = false ∧
    get_nutrition_info (.ok ⟨some (.num 0), none⟩) = none := by
  refine ⟨by decide, ?_⟩
  exact nutrition_empty_on_not_found.1 ⟨some (.num 0), none⟩ (by decide)

/-- C7: for every user, each field of the statistics summary equals the
sum of that field over all of the user's Meal rows (NULL columns counting
as 0, exactly the source's `or 0`), and the summary does not depend on the
manual_meals table at all. -/
theorem statistics_total_is_meal_sum (db : DB) (u : ℕ) :
    (show_statistics_totals db u).calories
        = ((get_diets db u).map (fun m => m.calories.getD 0)).sum ∧
    (show_statistics_totals db u).proteins
        = ((get_diets db u).map (fun m => m.proteins.getD 0)).sum ∧
    (show_statistics_totals db u).carbs
        = ((get_diets db u).map (fun m => m.carbs.getD 0)).sum ∧
    (show_statistics_totals db u).fats
        = ((get_diets db u).map (fun m => m.fats.getD 0)).sum ∧
    (∀ mm : List ManualMealRow,
      show_statistics_totals { db with manual_meals := mm } u
        = show_statistics_totals db u) :=
  ⟨rfl, rfl, rfl, rfl, fun _ => rfl⟩

/-- C8: restoring a backup of user `u` into a fresh user `u'` reproduces
the same multiset of meal contents (name, the four nutrition values, and
the timestamp through its formatted string form) and the same multiset of
manual-meal contents; row ids are freshly assigned. -/
theorem backup_restore_roundtrip (db db' : DB) (u u' : ℕ)
    (hm : get_diets db' u' = []) (hmm : get_manual_meals db' u' = []) :
    ((get_diets (restore_data u' (backup_data db u) db') u').map mealContent
        : Multiset (String × Option ℚ × Option ℚ × Option ℚ × Option ℚ × ℕ))
      = ((get_diets db u).map mealContent
        : Multiset (String × Option ℚ × Option ℚ × Option ℚ × Option ℚ × ℕ)) ∧
    ((get_manual_meals (restore_data u' (backup_data db u) db') u').map
        manualContent : Multiset (String × ℕ))
      = ((get_manual_meals db u).map manualContent
        : Multiset (String × ℕ)) := by
  have hmeals : (get_diets (restore_data u' (backup_data db u) db') u').map
        mealContent
      = (get_diets db u).map mealContent := by
    have hpres := foldl_insertManual_meals u' (backup_data db u).manual_meals
      ((backup_data db u).meals.foldl (insertMealFromRec u') db')
    have hsame : get_diets (restore_data u' (backup_data db u) db') u'
        = get_diets ((backup_data db u).meals.foldl (insertMealFromRec u') db')
            u' := by
      unfold restore_data get_diets
      rw [hpres]
    rw [hsame, foldl_insertMeal_content, hm]
    simp [backup_data, List.map_map]
    exact fun a _ => rfl
  have hmanual : (get_manual_meals (restore_data u' (backup_data db u) db')
        u').map manualContent
      = (get_manual_meals db u).map manualContent := by
    have hpres := foldl_insertMeal_manual u' (backup_data db u).meals db'
    have hbase : get_manual_meals
          ((backup_data db u).meals.foldl (insertMealFromRec u') db') u'
        = get_manual_meals db' u' := by
      unfold get_manual_meals
      rw [hpres]
    unfold restore_data
    rw [foldl_insertManual_content, hbase, hmm]
    simp [backup_data, List.map_map]
    exact fun a _ => rfl
  exact ⟨congrArg _ hmeals, congrArg _ hmanual⟩

/-- C8 witness: backing up user 1 of `c8db` (two meals, one NULL proteins
column, nonzero microseconds; one manual meal) and restoring into fresh
user 5 of `c8empty` reproduces the same contents. -/
theorem backup_restore_roundtrip_witness :
    get_diets c8empty 5 = [] ∧ get_manual_meals c8empty 5 = [] ∧
    ((get_diets (restore_data 5 (backup_data c8db 1) c8empty) 5).map
        mealContent
        : Multiset (String × Option ℚ × Option ℚ × Option ℚ × Option ℚ × ℕ))
      = ((get_diets c8db 1).map mealContent
        : Multiset (String × Option ℚ × Option ℚ × Option ℚ × Option ℚ × ℕ)) ∧
    ((get_manual_meals (restore_data 5 (backup_data c8db 1) c8empty) 5).map
        manualContent : Multiset (String × ℕ))
      = ((get_manual_meals c8db 1).map manualContent
        : Multiset (String × ℕ)) := by
  have h := backup_restore_roundtrip c8db c8empty 1 5 rfl rfl
  exact ⟨rfl, rfl, h.1, h.2⟩

/-- C9: a bulk reset by user `u` empties the whole translation cache,
deletes exactly `u`'s Meal and ManualMeal rows, leaves every other user's
Meal and ManualMeal rows unchanged, and leaves the users table
unchanged. -/
theorem reset_scope (db : DB) (u v : ℕ) (hvu : v ≠ u) :
    (reset_database_tables u db).translations = ⟨[]⟩ ∧
    get_diets (reset_database_tables u db) u = [] ∧
    get_manual_meals (reset_database_tables u db) u = [] ∧
    get_diets (reset_database_tables u db) v = get_diets db v ∧
    get_manual_meals (reset_database_tables u db) v = get_manual_meals db v ∧
    (reset_database_tables u db).users = db.users := by
  refine ⟨rfl, ?_, ?_, ?_, ?_, rfl⟩
  · show (db.meals.filter (fun m => !(m.user_id == u))).filter
        (fun m => m.user_id == u) = []
    exact filter_erase_then_self (fun m => m.user_id) db.meals u
  · show (db.manual_meals.filter (fun m => !(m.user_id == u))).filter
        (fun m => m.user_id == u) = []
    exact filter_erase_then_self (fun m => m.user_id) db.manual_meals u
  · show (db.meals.filter (fun m => !(m.user_id == u))).filter
        (fun m => m.user_id == v) = db.meals.filter (fun m => m.user_id == v)
    exact filter_erase_other (fun m => m.user_id) db.meals u v hvu
  · show (db.manual_meals.filter (fun m => !(m.user_id == u))).filter
        (fun m => m.user_id == v)
      = db.manual_meals.filter (fun m => m.user_id == v)
    exact filter_erase_other (fun m => m.user_id) db.manual_meals u v hvu

/-- C9 witness: user 1 resets `c9db`; the cache row created for another
user's product disappears, user 2's rows and the users table survive. -/
theorem reset_scope_witness :
    (2 : ℕ) ≠ 1 ∧
    ((reset_database_tables 1 c9db).translations = ⟨[]⟩ ∧
      get_diets (reset_database_tables 1 c9db) 1 = [] ∧
      get_manual_meals (reset_database_tables 1 c9db) 1 = [] ∧
      get_diets (reset_database_tables 1 c9db) 2 = get_diets c9db 2 ∧
      get_manual_meals (reset_database_tables 1 c9db) 2
        = get_manual_meals c9db 2 ∧
      (reset_database_tables 1 c9db).users = c9db.users) :=
  ⟨by decide, reset_scope c9db 1 2 (by decide)⟩

/-- C10: signing up an existing username returns `False` and leaves the
users table (indeed the whole store) unchanged; `create_user` preserves
username-uniqueness of the users table; and none of the other store
operations (meal insertion, manual-meal insertion, bulk reset, restore)
ever writes the users table, so at most one row per username exists after
any sequence of these operations. -/
theorem create_user_uniqueness (hash : String → String) (db : DB)
    (un pw : String) :
    ((∃ r ∈ db.users, r.username = un) →
      create_user hash db un pw = (false, db)) ∧
    (db.users.Pairwise (fun a b => a.username ≠ b.username) →
      ((create_user hash db un pw).2).users.Pairwise
        (fun a b => a.username ≠ b.username)) ∧
    (∀ (now : Timestamp) (u : ℕ) (meal : MealInput),
      (add_diet now u meal db).users = db.users) ∧
    (∀ (now : Timestamp) (u : ℕ) (name : String),
      (add_manual_meal now u name db).users = db.users) ∧
    (∀ u : ℕ, (reset_database_tables u db).users = db.users) ∧
    (∀ (u : ℕ) (f : BackupFile), (restore_data u f db).users = db.users) := by
  refine ⟨?_, ?_, fun _ _ _ => rfl, fun _ _ _ => rfl, fun _ => rfl, ?_⟩
  · intro hex
    have hany : db.users.any (fun r => r.username == un) = true := by
      rcases hex with ⟨r, hr, he⟩
      exact List.any_eq_true.mpr ⟨r, hr, by simp [he]⟩
    simp [create_user, hany]
  · intro hpw
    by_cases hany : db.users.any (fun r => r.username == un) = true
    · simp [create_user, hany]
      exact hpw
    · have hnone : ∀ r ∈ db.users, r.username ≠ un := by
        intro r hr he
        exact hany (List.any_eq_true.mpr ⟨r, hr, by simp [he]⟩)
      simp only [create_user, hany]
      simp only [Bool.false_eq_true, if_neg, ite_false]
      refine List.pairwise_append.mpr
        ⟨hpw, List.pairwise_singleton _ _, ?_⟩
      intro a ha b hb
      simp only [List.mem_singleton] at hb
      subst hb
      exact hnone a ha
  · intro u f
    exact (foldl_insertManual_users u f.manual_meals _).trans
      (foldl_insertMeal_users u f.meals db)

/-- C10 witness: signing up "alice" again over `c10db` fails and leaves
the store untouched; uniqueness is preserved. -/
theorem create_user_uniqueness_witness :
    (∃ r ∈ c10db.users, r.username = "alice") ∧
    create_user (fun s => s) c10db "alice" "pw" = (false, c10db) ∧
    (c10db.users.Pairwise (fun a b => a.username ≠ b.username) →
      ((create_user (fun s => s) c10db "alice" "pw").2).users.Pairwise
        (fun a b => a.username ≠ b.username)) := by
  have h := create_user_uniqueness (fun s => s) c10db "alice" "pw"
  refine ⟨⟨⟨1, "alice", "h1"⟩, by decide, rfl⟩, ?_, h.2.1⟩
  exact h.1 ⟨⟨1, "alice", "h1"⟩, by decide, rfl⟩

end Yeongyang
